import Mathlib

/-!
# Shallow embedding of the LancePay Soroban contracts

Embeds `src/contracts/src/{multisig_governance,dispute_resolution,gasless,
rebalancer}.rs`. Every storage write in those sources is commented out, so
each contract entry point is a pure function of its arguments: it either
traps (Rust `panic!`, embedded as `Except.error`) or succeeds, returning its
return value together with the list of events it publishes through
`env.events().publish`. `require_auth` is the host-supplied authentication
precondition (spec section 6: the core does not verify signatures itself), so
it is not part of the embedded computation.
-/

/-- Soroban `Address`, an opaque authenticated identity. -/
abbrev Address := Nat

/-- Values carried in event topics and payloads. -/
inductive Val where
  | str (s : String)
  | addr (a : Address)
  | u32 (n : Nat)
  | i128 (n : Int)
deriving DecidableEq

/-- One event published via `env.events().publish(topics, data)`. -/
structure Event where
  topics : List Val
  data : Val
deriving DecidableEq

/-- The only trap sites in the sources: `panic!("Invalid split ratio")` in
`dispute_resolution.rs` and `panic!("Transaction does not meet sponsorship
criteria")` in `gasless.rs`. No other error values occur anywhere in the code. -/
inductive Err where
  | invalidSplitRatio
  | sponsorshipRejected
deriving DecidableEq

/-- Smallest `i128` value. -/
def I128_MIN : Int := -(2 ^ 127)

/-- Largest `i128` value. -/
def I128_MAX : Int := 2 ^ 127 - 1

/-- Twos-complement wrap of an integer into the `i128` range, the semantics
of Rust `i128` arithmetic when it overflows without checks. -/
def i128Wrap (x : Int) : Int :=
  (x + 2 ^ 127) % 2 ^ 128 - 2 ^ 127

namespace MultisigGovernance

/-- Embeds `configure_multisig` (multisig_governance.rs lines 11-29): authenticates
the owner; the `SetOptions` execution and the storage write are commented out,
so the body performs no validation, stores nothing and publishes nothing.
The signature takes only three addresses — no weights and no thresholds. -/
def configure_multisig (_contract_owner _additional_signer_1 _additional_signer_2 : Address) :
    Except Err (Unit × List Event) :=
  Except.ok ((), [])

/-- Embeds `propose_sensitive_tx` (multisig_governance.rs lines 34-44): authenticates
the proposer; the event publish is commented out; unconditionally returns
`false` ("Not fully executed yet, pending seconds signature"). -/
def propose_sensitive_tx (_proposer : Address) (_amount : Int) :
    Except Err (Bool × List Event) :=
  Except.ok (false, [])

/-- Embeds `execute_with_second_sig` (multisig_governance.rs lines 47-54):
authenticates the co-signer; the threshold check is only a comment;
unconditionally returns `true` ("Transaction executed successfully"). -/
def execute_with_second_sig (_co_signer : Address) (_tx_hash : Int) :
    Except Err (Bool × List Event) :=
  Except.ok (true, [])

end MultisigGovernance

namespace DisputeResolutionCourt

/-- Embeds `initiate_dispute` (dispute_resolution.rs lines 18-30): authenticates the
disputer, publishes a `dispute_started` event with the escrow id and disputer,
and returns `true`. The existence check and record creation are only comments;
no storage is touched and no failure path exists. -/
def initiate_dispute (escrow_id : String) (disputer : Address) :
    Except Err (Bool × List Event) :=
  Except.ok (true, [⟨[Val.str "dispute_started", Val.str escrow_id], Val.addr disputer⟩])

/-- Embeds `submit_evidence` (dispute_resolution.rs lines 33-43): authenticates the
submitter and publishes an `evidence_submitted` event carrying the dispute id
and evidence hash. The storage write is commented out; there is no case-exists
or case-closed check and no failure path. -/
def submit_evidence (dispute_id evidence_hash : String) (_submitter : Address) :
    Except Err (Unit × List Event) :=
  Except.ok ((), [⟨[Val.str "evidence_submitted", Val.str dispute_id], Val.str evidence_hash⟩])

/-- Embeds `adjudicate` (dispute_resolution.rs lines 47-67): authenticates the
arbiter, then traps with `panic!("Invalid split ratio")` when
`split_ratio > 100` — this check precedes the event publish in the source, so
the error branch emits nothing. Otherwise publishes a `dispute_resolved` event
with the dispute id and ratio. The payout logic and any resolution storage are
only comments; no quorum or prior-resolution check exists. `split_ratio` is a
Rust `u32`, embedded as a natural number below `2 ^ 32`. -/
def adjudicate (dispute_id : String) (split_ratio : Nat) (_arbiter : Address) :
    Except Err (Unit × List Event) :=
  if split_ratio > 100 then
    Except.error Err.invalidSplitRatio
  else
    Except.ok ((), [⟨[Val.str "dispute_resolved", Val.str dispute_id], Val.u32 split_ratio⟩])

/-- The event trace produced by a sequence of `submit_evidence` calls on one
dispute, in call order; each pair is `(evidence_hash, submitter)`. Since the
contract is stateless, a sequence of calls is exactly the concatenation of the
event lists of the individual calls (the error case is unreachable but kept
for shape). -/
def evidenceTrace (dispute_id : String) : List (String × Address) → List Event
  | [] => []
  | (h, s) :: rest =>
      (match submit_evidence dispute_id h s with
        | Except.ok (_, evs) => evs
        | Except.error _ => []) ++ evidenceTrace dispute_id rest

end DisputeResolutionCourt

namespace GaslessHandler

/-- Embeds `validate_sponsorship` (gasless.rs lines 28-34): the eligibility predicate;
its body is only comments and it returns `true` for every input. -/
def validate_sponsorship (_tx_xdr : String) : Bool :=
  true

/-- Embeds `sponsor_transaction` (gasless.rs lines 11-25): authenticates the user,
traps when `validate_sponsorship` is false (never, per its body), and returns
the inner transaction XDR unchanged; publishes nothing. -/
def sponsor_transaction (inner_tx_xdr : String) (_user : Address) :
    Except Err (String × List Event) :=
  if validate_sponsorship inner_tx_xdr then
    Except.ok (inner_tx_xdr, [])
  else
    Except.error Err.sponsorshipRejected

end GaslessHandler

namespace LiquidityRebalancer

/-- Embeds `execute_swap` (rebalancer.rs lines 33-41): authenticates the wallet and
publishes a `rebalance_executed` event with the wallet and amount. -/
def execute_swap (wallet : Address) (amount_xlm : Int) : List Event :=
  [⟨[Val.str "rebalance_executed", Val.addr wallet], Val.i128 amount_xlm⟩]

/-- Embeds `check_and_rebalance` (rebalancer.rs lines 11-29): the "current balance" is
the literal `15_0000000` (the funding wallet argument is never read for the
decision); if it is at least `threshold` the call returns `false` with no
events, otherwise it swaps `target - current_balance` (`i128` arithmetic,
embedded with twos-complement wrap) and returns `true`. -/
def check_and_rebalance (funding_wallet : Address) (threshold target : Int) :
    Except Err (Bool × List Event) :=
  let current_balance : Int := 150000000
  if current_balance ≥ threshold then
    Except.ok (false, [])
  else
    let needed := i128Wrap (target - current_balance)
    Except.ok (true, execute_swap funding_wallet needed)

end LiquidityRebalancer

/-! ## Helper lemmas -/

/-- Wrapping is the identity on values already in the `i128` range. -/
theorem i128Wrap_eq_self (x : Int) (h1 : I128_MIN ≤ x) (h2 : x ≤ I128_MAX) :
    i128Wrap x = x := by
  unfold i128Wrap
  unfold I128_MIN at h1
  unfold I128_MAX at h2
  rw [Int.emod_eq_of_lt (by omega) (by omega)]
  omega

/-! ## Claims -/

/-- Claim C1 counterexample: `execute_with_second_sig` reports the action
executed (returns `true`), yet a subsequent `adjudicate` call on the same
action succeeds again and re-emits the resolution event instead of failing
with a Conflict-class error — and so does a third call. -/
theorem executed_then_adjudicate_succeeds_again :
    MultisigGovernance.execute_with_second_sig 1 7 = Except.ok (true, []) ∧
    DisputeResolutionCourt.adjudicate "7" 60 2 =
      Except.ok ((), [⟨[Val.str "dispute_resolved", Val.str "7"], Val.u32 60⟩]) ∧
    DisputeResolutionCourt.adjudicate "7" 60 3 =
      Except.ok ((), [⟨[Val.str "dispute_resolved", Val.str "7"], Val.u32 60⟩]) :=
  ⟨rfl, rfl, rfl⟩

/-- Claim C1 amended: the code enforces no once-only Pending-to-Executed
transition — `execute_with_second_sig` reports execution unconditionally, and
any later call on the same action still succeeds (`adjudicate` re-emits its
resolution event on every valid-ratio call); no AlreadyExecuted error value
exists in the code. -/
theorem no_once_only_execution (co_signer : Address) (tx_hash : Int)
    (dispute_id : String) (split_ratio : Nat) (arbiter : Address)
    (hr : split_ratio ≤ 100) :
    MultisigGovernance.execute_with_second_sig co_signer tx_hash = Except.ok (true, []) ∧
    DisputeResolutionCourt.adjudicate dispute_id split_ratio arbiter =
      Except.ok ((), [⟨[Val.str "dispute_resolved", Val.str dispute_id], Val.u32 split_ratio⟩]) := by
  refine ⟨rfl, ?_⟩
  unfold DisputeResolutionCourt.adjudicate
  rw [if_neg (by omega)]

/-- Claim C1 amended, witnessed at a concrete input. -/
theorem no_once_only_execution_witness :
    MultisigGovernance.execute_with_second_sig 4 9 = Except.ok (true, []) ∧
    DisputeResolutionCourt.adjudicate "9" 50 4 =
      Except.ok ((), [⟨[Val.str "dispute_resolved", Val.str "9"], Val.u32 50⟩]) :=
  no_once_only_execution 4 9 "9" 50 4 (by decide)

/-- Claim C2 counterexample: two successive adjudications of the same case
both succeed — the second is not rejected with AlreadyResolved, and it emits
its own ratio (30) rather than preserving the first committed ratio (60); no
resolution is stored at all. -/
theorem second_adjudication_succeeds :
    DisputeResolutionCourt.adjudicate "case-1" 60 1 =
      Except.ok ((), [⟨[Val.str "dispute_resolved", Val.str "case-1"], Val.u32 60⟩]) ∧
    DisputeResolutionCourt.adjudicate "case-1" 30 2 =
      Except.ok ((), [⟨[Val.str "dispute_resolved", Val.str "case-1"], Val.u32 30⟩]) :=
  ⟨rfl, rfl⟩

/-- Claim C2 amended: finalization is not once-only — the code stores no
resolution and defines no AlreadyResolved error; every `adjudicate` call with
a ratio in [0,100] succeeds, whatever calls preceded it on the same case, and
each emitted `dispute_resolved` event carries the ratio of that call alone. -/
theorem adjudicate_always_succeeds_on_valid_ratio (dispute_id : String)
    (r1 r2 : Nat) (a1 a2 : Address) (h1 : r1 ≤ 100) (h2 : r2 ≤ 100) :
    DisputeResolutionCourt.adjudicate dispute_id r1 a1 =
      Except.ok ((), [⟨[Val.str "dispute_resolved", Val.str dispute_id], Val.u32 r1⟩]) ∧
    DisputeResolutionCourt.adjudicate dispute_id r2 a2 =
      Except.ok ((), [⟨[Val.str "dispute_resolved", Val.str dispute_id], Val.u32 r2⟩]) := by
  constructor <;> (unfold DisputeResolutionCourt.adjudicate; rw [if_neg (by omega)])

/-- Claim C2 amended, witnessed at a concrete input. -/
theorem adjudicate_always_succeeds_on_valid_ratio_witness :
    DisputeResolutionCourt.adjudicate "case-3" 80 1 =
      Except.ok ((), [⟨[Val.str "dispute_resolved", Val.str "case-3"], Val.u32 80⟩]) ∧
    DisputeResolutionCourt.adjudicate "case-3" 20 2 =
      Except.ok ((), [⟨[Val.str "dispute_resolved", Val.str "case-3"], Val.u32 20⟩]) :=
  adjudicate_always_succeeds_on_valid_ratio "case-3" 80 20 1 2 (by decide) (by decide)

/-- Claim C5: `adjudicate` with a split ratio above 100 fails with the
invalid-input trap and emits nothing (the check precedes the publish in the
source), regardless of any quorum consideration; with a ratio in [0,100] the
validation passes and the call proceeds to emit its resolution event. -/
theorem adjudicate_ratio_validation (dispute_id : String) (split_ratio : Nat)
    (arbiter : Address) (hbound : split_ratio < 2 ^ 32) :
    (100 < split_ratio →
      DisputeResolutionCourt.adjudicate dispute_id split_ratio arbiter =
        Except.error Err.invalidSplitRatio) ∧
    (split_ratio ≤ 100 →
      DisputeResolutionCourt.adjudicate dispute_id split_ratio arbiter =
        Except.ok ((), [⟨[Val.str "dispute_resolved", Val.str dispute_id],
          Val.u32 split_ratio⟩])) := by
  constructor <;> intro h <;> unfold DisputeResolutionCourt.adjudicate
  · rw [if_pos (by omega)]
  · rw [if_neg (by omega)]

/-- Claim C5, witnessed at ratio 150 (rejected) and ratio 60 (accepted). -/
theorem adjudicate_ratio_validation_witness :
    DisputeResolutionCourt.adjudicate "case-9" 150 7 = Except.error Err.invalidSplitRatio ∧
    DisputeResolutionCourt.adjudicate "case-9" 60 7 =
      Except.ok ((), [⟨[Val.str "dispute_resolved", Val.str "case-9"], Val.u32 60⟩]) :=
  ⟨(adjudicate_ratio_validation "case-9" 150 7 (by norm_num)).1 (by norm_num),
   (adjudicate_ratio_validation "case-9" 60 7 (by norm_num)).2 (by norm_num)⟩

/-- Claim C6 counterexample: initiating the same case id twice succeeds both
times — the second call is not rejected with DuplicateCase; no record is
created, the call only emits the `dispute_started` notification. -/
theorem duplicate_initiate_succeeds :
    DisputeResolutionCourt.initiate_dispute "case-1" 5 =
      Except.ok (true, [⟨[Val.str "dispute_started", Val.str "case-1"], Val.addr 5⟩]) ∧
    DisputeResolutionCourt.initiate_dispute "case-1" 6 =
      Except.ok (true, [⟨[Val.str "dispute_started", Val.str "case-1"], Val.addr 6⟩]) :=
  ⟨rfl, rfl⟩

/-- Claim C6 amended: `initiate_dispute` always succeeds for an authenticated
disputer, emitting the dispute-opened notification with the case id and
disputer; it creates no stored record and performs no duplicate-case check,
so a repeated case id is accepted again rather than failing with
DuplicateCase. -/
theorem initiate_dispute_always_emits (escrow_id : String) (disputer : Address) :
    DisputeResolutionCourt.initiate_dispute escrow_id disputer =
      Except.ok (true, [⟨[Val.str "dispute_started", Val.str escrow_id],
        Val.addr disputer⟩]) :=
  rfl

/-- Claim C7 counterexample: `submit_evidence` succeeds on a case that was
never initiated (no CaseNotFound), and succeeds on a case after its
adjudication (no CaseClosed). -/
theorem submit_evidence_never_rejects_example :
    DisputeResolutionCourt.submit_evidence "no-such-case" "hash0" 3 =
      Except.ok ((), [⟨[Val.str "evidence_submitted", Val.str "no-such-case"],
        Val.str "hash0"⟩]) ∧
    DisputeResolutionCourt.adjudicate "case-2" 40 1 =
      Except.ok ((), [⟨[Val.str "dispute_resolved", Val.str "case-2"], Val.u32 40⟩]) ∧
    DisputeResolutionCourt.submit_evidence "case-2" "late-hash" 3 =
      Except.ok ((), [⟨[Val.str "evidence_submitted", Val.str "case-2"],
        Val.str "late-hash"⟩]) :=
  ⟨rfl, rfl, rfl⟩

/-- Claim C7 amended: `submit_evidence` emits one `evidence_submitted` event
per call and a sequence of submissions yields the evidence hashes in exactly
submission order in the event trace — but nothing is stored and no failure
path exists: every call succeeds whether or not the case exists or is
resolved (no CaseNotFound, no CaseClosed). -/
theorem submit_evidence_trace_order (dispute_id : String)
    (subs : List (String × Address)) :
    (DisputeResolutionCourt.evidenceTrace dispute_id subs).map Event.data =
      subs.map (fun p => Val.str p.1) ∧
    ∀ eh s, DisputeResolutionCourt.submit_evidence dispute_id eh s =
      Except.ok ((), [⟨[Val.str "evidence_submitted", Val.str dispute_id],
        Val.str eh⟩]) := by
  constructor
  · induction subs with
    | nil => rfl
    | cons p rest ih =>
        simp [DisputeResolutionCourt.evidenceTrace,
          DisputeResolutionCourt.submit_evidence, ih]
  · intro eh s
    rfl

/-- Claim C8 counterexample: a first, single-arbiter `adjudicate` call — the
below-quorum situation in the 2-of-3, high-threshold-2 scheme the code
documents — reports success and emits the `dispute_resolved` event, instead
of returning a pending result with no resolution effect. -/
theorem single_call_adjudicate_emits_resolution :
    DisputeResolutionCourt.adjudicate "case-7" 60 8 =
      Except.ok ((), [⟨[Val.str "dispute_resolved", Val.str "case-7"], Val.u32 60⟩]) :=
  rfl

/-- Claim C8 amended: the pending path exists only in `propose_sensitive_tx`,
which always returns a pending result (`false`) with no state change and no
event; `adjudicate` performs no quorum check at all — every call with a valid
ratio emits `dispute_resolved` immediately, however many signatures exist. -/
theorem pending_only_in_propose (proposer : Address) (amount : Int)
    (dispute_id : String) (split_ratio : Nat) (arbiter : Address)
    (hr : split_ratio ≤ 100) :
    MultisigGovernance.propose_sensitive_tx proposer amount = Except.ok (false, []) ∧
    DisputeResolutionCourt.adjudicate dispute_id split_ratio arbiter =
      Except.ok ((), [⟨[Val.str "dispute_resolved", Val.str dispute_id],
        Val.u32 split_ratio⟩]) := by
  refine ⟨rfl, ?_⟩
  unfold DisputeResolutionCourt.adjudicate
  rw [if_neg (by omega)]

/-- Claim C8 amended, witnessed at a concrete input. -/
theorem pending_only_in_propose_witness :
    MultisigGovernance.propose_sensitive_tx 2 1000 = Except.ok (false, []) ∧
    DisputeResolutionCourt.adjudicate "case-8" 70 2 =
      Except.ok ((), [⟨[Val.str "dispute_resolved", Val.str "case-8"], Val.u32 70⟩]) :=
  pending_only_in_propose 2 1000 "case-8" 70 2 (by decide)

/-- Claim C9: `validate_sponsorship` returns `true` for every input, so
`sponsor_transaction` never rejects on the eligibility check, and its result
is the inner transaction XDR unchanged, with no events. -/
theorem sponsor_transaction_identity (inner_tx_xdr : String) (user : Address) :
    GaslessHandler.validate_sponsorship inner_tx_xdr = true ∧
    GaslessHandler.sponsor_transaction inner_tx_xdr user =
      Except.ok (inner_tx_xdr, []) :=
  ⟨rfl, rfl⟩

/-- Claim C10: `check_and_rebalance` compares the fixed constant 150000000
against `threshold`: any threshold at most 150000000 yields `false` with no
swap; any larger threshold yields `true` with a swap of exactly
`target - 150000000` (when representable in `i128`); and the returned
decision is identical for every funding wallet, independent of any actual
balance. -/
theorem check_and_rebalance_constant_balance (funding_wallet wallet2 : Address)
    (threshold target : Int) :
    (threshold ≤ 150000000 →
      LiquidityRebalancer.check_and_rebalance funding_wallet threshold target =
        Except.ok (false, [])) ∧
    (150000000 < threshold → I128_MIN ≤ target - 150000000 →
      target - 150000000 ≤ I128_MAX →
      LiquidityRebalancer.check_and_rebalance funding_wallet threshold target =
        Except.ok (true, [⟨[Val.str "rebalance_executed", Val.addr funding_wallet],
          Val.i128 (target - 150000000)⟩])) ∧
    (LiquidityRebalancer.check_and_rebalance funding_wallet threshold target).map
        (fun r => r.1) =
      (LiquidityRebalancer.check_and_rebalance wallet2 threshold target).map
        (fun r => r.1) := by
  refine ⟨?_, ?_, ?_⟩
  · intro h
    unfold LiquidityRebalancer.check_and_rebalance
    rw [if_pos (by omega)]
  · intro h hlo hhi
    unfold LiquidityRebalancer.check_and_rebalance LiquidityRebalancer.execute_swap
    rw [if_neg (by omega), i128Wrap_eq_self (target - 150000000) hlo hhi]
  · unfold LiquidityRebalancer.check_and_rebalance LiquidityRebalancer.execute_swap
    by_cases h : (150000000 : Int) ≥ threshold
    · rw [if_pos h, if_pos h]
    · rw [if_neg h, if_neg h]
      rfl

/-- Claim C10, witnessed at threshold 100 (no swap) and at threshold
200000000 with target 300000000 (swap of exactly 150000000). -/
theorem check_and_rebalance_constant_balance_witness :
    LiquidityRebalancer.check_and_rebalance 1 100 300000000 = Except.ok (false, []) ∧
    LiquidityRebalancer.check_and_rebalance 1 200000000 300000000 =
      Except.ok (true, [⟨[Val.str "rebalance_executed", Val.addr 1],
        Val.i128 150000000⟩]) := by
  constructor
  · exact (check_and_rebalance_constant_balance 1 2 100 300000000).1 (by norm_num)
  · have h := (check_and_rebalance_constant_balance 1 2 200000000 300000000).2.1
      (by norm_num) (by norm_num [I128_MIN]) (by norm_num [I128_MAX])
    norm_num at h
    exact h
